import Mathlib

/-!
Verification of the JWT verification core of the Todo-Kudo backend
(`backend/app/core/auth.py` and `backend/app/api/dependencies.py`).

The embedding models:
  * `get_jwks` — the `lru_cache(maxsize=1)`-memoized JWKS fetch: a single-slot
    cache over an HTTP GET (`httpx.get(url, timeout=5.0)`, `raise_for_status`,
    `response.json()`), where any failure is wrapped in a plain
    `Exception("Failed to fetch JWKS: ...")`.  `functools.lru_cache` does not
    memoize exceptions, so a failed fetch leaves the slot empty.
  * `verify_jwt_token` — header parsing (`jwt.get_unverified_header`), the
    `kid` lookup over `jwks.get("keys", [])`, and `jose.jwt.decode` with
    `algorithms=["RS256", "PS256", "ES256"]` and audience/issuer both set to
    `settings.BETTER_AUTH_URL`.  The python-jose pipeline is modelled
    faithfully: the signature (algorithm allow-list, key-type compatibility,
    signature equality) is checked before the claims, and the claims are
    validated in python-jose order nbf, exp, aud, iss; a missing `exp` or a
    missing `aud` claim is accepted, a missing `iss` is rejected.
  * `get_current_user` — the FastAPI dependency wrapping `verify_jwt_token`.

State is passed explicitly: `CacheState` carries the `lru_cache` slot plus two
instrumentation counters (network fetches performed, `cache_clear` calls).
The network is a per-call parameter `NetResponse` describing what the single
HTTP GET would observe.  Real time enters only through the `now : Int`
parameter against which `exp`/`nbf` are compared.  The RSA/ECDSA signature
primitive is abstracted by the concrete function `sign`: a token's signature
is valid for a key and algorithm exactly when it equals
`sign key.material alg signingInput`, which preserves determinism and
key/algorithm dependence of real signatures.
-/

namespace TodoKudo

/-- The slice of `app.core.config.Settings` the verifier reads.
`BETTER_AUTH_URL` is used both as the expected audience and the expected
issuer in `jwt.decode`. -/
structure Settings where
  BETTER_AUTH_URL : String
deriving DecidableEq, Repr

/-- One JWK object from the `keys` list of the JWKS document: its optional
`kid`, its key type `kty` (`"RSA"`, `"EC"`, ...), and the public-key
material, abstracted to a `Nat`. -/
structure JWK where
  kid : Option String
  kty : String
  material : Nat
deriving DecidableEq, Repr

/-- The parsed JSON body a successful `response.json()` can produce:
either not a JSON object at all (then `jwks.get("keys", [])` in
`verify_jwt_token` raises `AttributeError`), or an object whose `"keys"`
entry is present (a list of JWKs) or absent. -/
inductive JwksJson where
  | nonMapping : JwksJson
  | mapping : Option (List JWK) → JwksJson
deriving DecidableEq, Repr

/-- What the single HTTP GET of one `get_jwks` cache miss observes:
a connection failure or timeout, a non-2xx status (so `raise_for_status`
raises), a 2xx body that is not parseable JSON, or a parseable JSON body. -/
inductive NetResponse where
  | netFail : NetResponse
  | httpError : Nat → NetResponse
  | invalidJson : NetResponse
  | json : JwksJson → NetResponse
deriving DecidableEq, Repr

/-- The process state around `get_jwks`: the `lru_cache(maxsize=1)` slot,
plus instrumentation: how many network fetches have been performed and how
many times `get_jwks.cache_clear()` has been called. -/
structure CacheState where
  cache : Option JwksJson
  fetchCount : Nat
  clearCount : Nat
deriving DecidableEq, Repr

/-- The `timeout=5.0` argument of `httpx.get` in `get_jwks`, in seconds. -/
def jwksTimeoutSeconds : Nat := 5

/-- `get_jwks()` under `lru_cache(maxsize=1)`: a cache hit returns the stored
document without touching the network; a miss performs one GET and either
stores and returns the parsed JSON or fails with the plain
`Exception("Failed to fetch JWKS: ...")` — and `lru_cache` does not memoize
the exception, so the slot stays empty. -/
def get_jwks (w : NetResponse) (s : CacheState) :
    Except String JwksJson × CacheState :=
  match s.cache with
  | some j => (.ok j, s)
  | none =>
    let s1 : CacheState :=
      { cache := none, fetchCount := s.fetchCount + 1, clearCount := s.clearCount }
    match w with
    | .netFail =>
        (.error "Failed to fetch JWKS: network failure or timeout", s1)
    | .httpError c =>
        (.error ("Failed to fetch JWKS: HTTP status " ++ toString c), s1)
    | .invalidJson =>
        (.error "Failed to fetch JWKS: response is not valid JSON", s1)
    | .json j =>
        (.ok j, { cache := some j, fetchCount := s.fetchCount + 1, clearCount := s.clearCount })

/-- `get_jwks.cache_clear()` (used by `clear_jwks_cache.py`; never called by
`verify_jwt_token`): empties the slot and counts the invalidation. -/
def cache_clear (s : CacheState) : CacheState :=
  { cache := none, fetchCount := s.fetchCount, clearCount := s.clearCount + 1 }

/-- The decoded JOSE header of a token: the `alg` and `kid` entries,
each possibly absent. -/
structure JoseHeader where
  alg : Option String
  kid : Option String
deriving DecidableEq, Repr

/-- The decoded payload claims relevant to verification.  `sub`, `iss`,
`aud` are optional strings; `exp`, `nbf` are optional integer timestamps. -/
structure TokenClaims where
  sub : Option String
  iss : Option String
  aud : Option String
  exp : Option Int
  nbf : Option Int
deriving DecidableEq, Repr

/-- A raw bearer-token string as the verifier sees it: either structurally
invalid (wrong number of segments or an undecodable header — then
`jwt.get_unverified_header` raises), or parseable into a header, claims,
the signing input (header‖payload bytes, abstracted to a `Nat`) and the
signature value. -/
inductive RawToken where
  | malformed : RawToken
  | parsed : JoseHeader → TokenClaims → Nat → Nat → RawToken
deriving DecidableEq, Repr

/-- The distinct failures `verify_jwt_token` can surface, tagged by the spec's
taxonomy names but placed exactly at the code's raise sites:
`malformedToken` (JWTError from `get_unverified_header` or the missing-`kid`
check), `keyFetchError` (the plain `Exception` from `get_jwks`, which the
`except (JWTError, JWKError)` clause does not catch), `attributeError`
(`jwks.get` on a non-mapping JSON document), `unknownKey`, `signatureError`
(JWS/JWK errors from `jwt.decode`) and `claimError` (claim validation and the
missing/empty-`sub` check). -/
inductive VError where
  | malformedToken : String → VError
  | keyFetchError : String → VError
  | attributeError : VError
  | unknownKey : String → VError
  | signatureError : String → VError
  | claimError : String → VError
deriving DecidableEq, Repr

/-- Whether the Python exception this failure stands for leaves
`verify_jwt_token` as a `jose.JWTError`.  JWT/JWK errors are re-raised as
`JWTError("Token verification failed: ...")`; the plain fetch `Exception`
and the `AttributeError` propagate with their own types. -/
def VError.raisedAsJWTError : VError → Bool
  | .malformedToken _ => true
  | .unknownKey _ => true
  | .signatureError _ => true
  | .claimError _ => true
  | .keyFetchError _ => false
  | .attributeError => false

/-- The message carried by the failure. -/
def VError.message : VError → String
  | .malformedToken m => m
  | .keyFetchError m => m
  | .attributeError => "AttributeError"
  | .unknownKey m => m
  | .signatureError m => m
  | .claimError m => m

/-- Whether a verification result is a claim-validation failure. -/
def failedWithClaimError : Except VError String → Bool
  | .error (.claimError _) => true
  | _ => false

/-- Whether a verification result is a signature-stage failure. -/
def failedWithSignatureError : Except VError String → Bool
  | .error (.signatureError _) => true
  | _ => false

/-- Whether a verification result is a malformed-token failure. -/
def failedWithMalformedToken : Except VError String → Bool
  | .error (.malformedToken _) => true
  | _ => false

/-- The `algorithms=["RS256", "PS256", "ES256"]` allow-list passed to
`jwt.decode` in `verify_jwt_token`. -/
def allowedAlgorithms : List String := ["RS256", "PS256", "ES256"]

/-- `jose.jwt.get_unverified_header`: raises `JWTError` on a structurally
invalid token, otherwise returns the decoded header. -/
def get_unverified_header : RawToken → Except VError JoseHeader
  | .malformed => .error (.malformedToken "Error decoding token headers.")
  | .parsed h _ _ _ => .ok h

/-- The key type `jwk.construct` requires for each allow-listed algorithm
(RSAKey for RS256/PS256, ECKey for ES256); `none` for algorithms the
allow-list check already rejects. -/
def ktyFor : String → Option String
  | "RS256" => some "RSA"
  | "PS256" => some "RSA"
  | "ES256" => some "EC"
  | _ => none

/-- A numeric code per algorithm name, so that the abstract signature
depends on the algorithm as real signatures do. -/
def algCode : String → Nat
  | "RS256" => 1
  | "PS256" => 2
  | "ES256" => 3
  | _ => 0

/-- Abstract model of producing a JWS signature over the signing input with
the given key material and algorithm.  Verification succeeds exactly when the
token's signature equals this value, which captures determinism and the
dependence on key and algorithm. -/
def sign (material : Nat) (alg : String) (signingInput : Nat) : Nat :=
  (material + 1) * 2000003 + algCode alg * 65537 + signingInput + 1

/-- python-jose `_validate_nbf` (leeway 0): a present `nbf` in the future
fails with `JWTClaimsError`; a missing `nbf` passes. -/
def validate_nbf (c : TokenClaims) (now : Int) : Except VError Unit :=
  match c.nbf with
  | none => .ok ()
  | some n =>
    if now < n then .error (.claimError "The token is not yet valid (nbf)")
    else .ok ()

/-- python-jose `_validate_exp` (leeway 0): a present `exp` strictly in the
past fails with `ExpiredSignatureError`; a missing `exp` passes
(`require_exp` defaults to false). -/
def validate_exp (c : TokenClaims) (now : Int) : Except VError Unit :=
  match c.exp with
  | none => .ok ()
  | some e =>
    if e < now then .error (.claimError "Signature has expired.")
    else .ok ()

/-- python-jose `_validate_aud`: a missing `aud` claim passes even though an
audience was configured; a present `aud` different from the configured
audience fails with `JWTClaimsError("Invalid audience")`. -/
def validate_aud (c : TokenClaims) (audience : String) : Except VError Unit :=
  match c.aud with
  | none => .ok ()
  | some a =>
    if a ≠ audience then .error (.claimError "Invalid audience")
    else .ok ()

/-- python-jose `_validate_iss`: with a configured issuer, `claims.get("iss")`
must equal it, so a missing `iss` also fails with
`JWTClaimsError("Invalid issuer")`. -/
def validate_iss (c : TokenClaims) (issuer : String) : Except VError Unit :=
  if c.iss ≠ some issuer then .error (.claimError "Invalid issuer")
  else .ok ()

/-- python-jose `_validate_claims` restricted to the claims this token model
carries, in the library's order: nbf, exp, aud, iss. -/
def validate_claims (c : TokenClaims) (audience issuer : String) (now : Int) :
    Except VError Unit := do
  validate_nbf c now
  validate_exp c now
  validate_aud c audience
  validate_iss c issuer

/-- `jose.jwt.decode(token, key, algorithms, audience, issuer)`: signature
stage first — the header must carry an `alg` on the allow-list, the key's
`kty` must fit that algorithm (`jwk.construct`), and the signature must
verify — then claim validation, then the claims are returned. -/
def jose_decode (token : RawToken) (key : JWK) (algorithms : List String)
    (audience issuer : String) (now : Int) : Except VError TokenClaims :=
  match token with
  | .malformed => .error (.malformedToken "Error decoding token headers.")
  | .parsed h c signingInput sig =>
    match h.alg with
    | none => .error (.signatureError "No algorithm was specified in the JWS header.")
    | some alg =>
      if alg ∉ algorithms then
        .error (.signatureError "The specified alg value is not allowed")
      else
        match ktyFor alg with
        | none => .error (.signatureError ("Unable to find an algorithm for key: " ++ alg))
        | some fam =>
          if key.kty ≠ fam then
            .error (.signatureError ("Incorrect key type. Expected: " ++ fam ++ ", Received: " ++ key.kty))
          else if sig ≠ sign key.material alg signingInput then
            .error (.signatureError "Signature verification failed.")
          else
            match validate_claims c audience issuer now with
            | .error e => .error e
            | .ok _ => .ok c

/-- The `for key in jwks.get("keys", []): if key.get("kid") == kid` loop:
first key whose `kid` equals the token's. -/
def find_matching_key (keys : List JWK) (kid : String) : Option JWK :=
  keys.find? (fun k => k.kid == some kid)

/-- The part of `verify_jwt_token` after `get_jwks()` returned a document:
header parsing, the falsy-`kid` check, key lookup, `jwt.decode`, and the
falsy-`sub` check.  Depends only on the document, not on the cache state. -/
def verifyWithJwks (cfg : Settings) (now : Int) (jwks : JwksJson)
    (token : RawToken) : Except VError String :=
  match get_unverified_header token with
  | .error e => .error e
  | .ok h =>
    match h.kid with
    | none => .error (.malformedToken "Token missing 'kid' in header")
    | some kid =>
      if kid = "" then .error (.malformedToken "Token missing 'kid' in header")
      else
        match jwks with
        | .nonMapping => .error .attributeError
        | .mapping okeys =>
          match find_matching_key (okeys.getD []) kid with
          | none => .error (.unknownKey ("No matching key found for kid: " ++ kid))
          | some key =>
            match jose_decode token key allowedAlgorithms
                cfg.BETTER_AUTH_URL cfg.BETTER_AUTH_URL now with
            | .error e => .error e
            | .ok payload =>
              match payload.sub with
              | none => .error (.claimError "Missing user_id in token payload")
              | some u =>
                if u = "" then .error (.claimError "Missing user_id in token payload")
                else .ok u

/-- `verify_jwt_token(token)`: calls `get_jwks()` first (its plain `Exception`
escapes the `except (JWTError, JWKError)` clause untouched), then runs the
token pipeline over the returned document.  No retry and no cache
invalidation happen anywhere in this function. -/
def verify_jwt_token (cfg : Settings) (now : Int) (w : NetResponse)
    (token : RawToken) (s : CacheState) : Except VError String × CacheState :=
  match get_jwks w s with
  | (.error m, s1) => (.error (.keyFetchError m), s1)
  | (.ok jwks, s1) => (verifyWithJwks cfg now jwks token, s1)

/-- The outcome of the FastAPI dependency: the authenticated user id, or a
401 with a detail string. -/
inductive AuthOutcome where
  | authorized : String → AuthOutcome
  | http401 : String → AuthOutcome
deriving DecidableEq, Repr

/-- `get_current_user` from `app/api/dependencies.py`: calls
`verify_jwt_token`; a falsy return value would 401 with
"Invalid authentication credentials"; a `JWTError` 401s with
"Could not validate credentials: ..."; any other exception 401s with
"Invalid authentication credentials". -/
def get_current_user (cfg : Settings) (now : Int) (w : NetResponse)
    (token : RawToken) (s : CacheState) : AuthOutcome × CacheState :=
  match verify_jwt_token cfg now w token s with
  | (.ok u, s1) =>
    if u = "" then (.http401 "Invalid authentication credentials", s1)
    else (.authorized u, s1)
  | (.error e, s1) =>
    if e.raisedAsJWTError then
      (.http401 ("Could not validate credentials: Token verification failed: " ++ e.message), s1)
    else (.http401 "Invalid authentication credentials", s1)

end TodoKudo

namespace TodoKudo

/-! Concrete fixtures used by witnesses and counterexamples. -/

/-- The default configuration: `BETTER_AUTH_URL = "http://localhost:3000"`. -/
def cfg0 : Settings := ⟨"http://localhost:3000"⟩

/-- An RSA signing key with kid `k1`. -/
def key1 : JWK := ⟨some "k1", "RSA", 7⟩

/-- A JWKS document whose `keys` list holds exactly `key1`. -/
def jwksDoc : JwksJson := .mapping (some [key1])

/-- Claims matching `cfg0`: subject `user-42`, fresh at time 1000. -/
def goodClaims : TokenClaims :=
  ⟨some "user-42", some "http://localhost:3000", some "http://localhost:3000", some 2000, none⟩

/-- A well-formed RS256 token for `key1` carrying `goodClaims`, correctly
signed over signing input 11. -/
def goodToken : RawToken :=
  .parsed ⟨some "RS256", some "k1"⟩ goodClaims 11 (sign 7 "RS256" 11)

/-- Claims identical to `goodClaims` except that `exp = 500`, in the past at
time 1000. -/
def expiredClaims : TokenClaims :=
  ⟨some "user-42", some "http://localhost:3000", some "http://localhost:3000", some 500, none⟩

/-- Claims identical to `goodClaims` except that the `sub` claim is absent. -/
def noSubClaims : TokenClaims :=
  ⟨none, some "http://localhost:3000", some "http://localhost:3000", some 2000, none⟩

/-- The cold-start state: empty cache, no fetches, no invalidations. -/
def s0 : CacheState := ⟨none, 0, 0⟩

/-! Helper lemmas about `get_jwks` and `verify_jwt_token`. -/

/-- A populated slot is a cache hit: the stored document is returned and
neither the network nor the state is touched, whatever the network would do. -/
lemma get_jwks_hit (w : NetResponse) (s : CacheState) (j : JwksJson)
    (h : s.cache = some j) : get_jwks w s = (.ok j, s) := by
  unfold get_jwks
  rw [h]

/-- Inversion of a successful `get_jwks`: afterwards the slot holds the
returned document, at most one fetch happened, and no invalidation did;
moreover a repeated call is a cache hit returning the same document. -/
lemma get_jwks_ok_inv (w : NetResponse) (s s1 : CacheState) (j : JwksJson)
    (h : get_jwks w s = (.ok j, s1)) :
    s1.cache = some j ∧ s1.fetchCount ≤ s.fetchCount + 1 ∧
      s1.clearCount = s.clearCount ∧ get_jwks w s1 = (.ok j, s1) := by
  cases hc : s.cache with
  | some j0 =>
    rw [get_jwks_hit w s j0 hc] at h
    simp only [Prod.mk.injEq, Except.ok.injEq] at h
    obtain ⟨rfl, rfl⟩ := h
    exact ⟨hc, Nat.le_succ _, rfl, get_jwks_hit w s _ hc⟩
  | none =>
    cases w <;> simp [get_jwks, hc] at h
    obtain ⟨rfl, rfl⟩ := h
    exact ⟨rfl, Nat.le_refl _, rfl, get_jwks_hit _ _ _ rfl⟩

/-- Inversion of a failed `get_jwks`: the failure can only arise on a cache
miss, exactly one fetch was attempted, and the slot is still empty — the
failure is not memoized. -/
lemma get_jwks_err_inv (w : NetResponse) (s s1 : CacheState) (m : String)
    (h : get_jwks w s = (.error m, s1)) :
    s.cache = none ∧ s1.cache = none ∧
      s1.fetchCount = s.fetchCount + 1 ∧ s1.clearCount = s.clearCount := by
  cases hc : s.cache with
  | some j0 =>
    rw [get_jwks_hit w s j0 hc] at h
    exact absurd (congrArg Prod.fst h) (by simp)
  | none =>
    cases w <;> simp [get_jwks, hc] at h <;>
      (obtain ⟨hm, hs⟩ := h; subst hs; exact ⟨rfl, rfl, rfl, rfl⟩)

/-- Unfolding `verify_jwt_token` along a successful `get_jwks`. -/
lemma verify_of_jwks (cfg : Settings) (now : Int) (w : NetResponse)
    (token : RawToken) (s s1 : CacheState) (j : JwksJson)
    (hg : get_jwks w s = (.ok j, s1)) :
    verify_jwt_token cfg now w token s = (verifyWithJwks cfg now j token, s1) := by
  unfold verify_jwt_token
  rw [hg]

/-- Inversion of a successful `verify_jwt_token`: the key fetch succeeded
with some document and the token pipeline over that document returned the
subject. -/
lemma verify_ok_inv (cfg : Settings) (now : Int) (w : NetResponse)
    (token : RawToken) (s s1 : CacheState) (u : String)
    (h : verify_jwt_token cfg now w token s = (.ok u, s1)) :
    ∃ j, get_jwks w s = (.ok j, s1) ∧ verifyWithJwks cfg now j token = .ok u := by
  unfold verify_jwt_token at h
  rcases hg : get_jwks w s with ⟨res, s2⟩
  rw [hg] at h
  cases res with
  | error m => simp at h
  | ok j =>
    simp only [Prod.mk.injEq] at h
    obtain ⟨h1, h2⟩ := h
    subst h2
    exact ⟨j, rfl, h1⟩

end TodoKudo

namespace TodoKudo

/-- C5 (counterexample): the claim's "if and only if" fails in the
malformed-shape direction.  A response that is valid JSON but does not
conform to the key-set shape — here the JSON object `{}`, which has no
`keys` list (`JwksJson.mapping none`) — makes `get_jwks` succeed and return
the document instead of failing with `KeyFetchError`. -/
theorem C5_counterexample :
    (get_jwks (.json (.mapping none)) s0).1 = .ok (.mapping none) := rfl

/-- C5 (amended): on a cache miss, `get_jwks` fails (with the plain
"Failed to fetch JWKS" error) exactly when the network call fails, returns
an error status, or the body is not parseable JSON; the timeout bound is 5
seconds.  A parseable JSON body — conforming to the key-set shape or not —
is stored and returned as-is. -/
theorem C5_fetch_failure_conditions (w : NetResponse) (s : CacheState)
    (d : JwksJson) (hc : s.cache = none) :
    ((∃ m, (get_jwks w s).1 = .error m) ↔
      (w = .netFail ∨ (∃ c, w = .httpError c) ∨ w = .invalidJson)) ∧
    (w = .json d →
      get_jwks w s = (.ok d, ⟨some d, s.fetchCount + 1, s.clearCount⟩)) ∧
    jwksTimeoutSeconds = 5 := by
  refine ⟨?_, ?_, rfl⟩
  · cases w <;> simp [get_jwks, hc]
  · intro hw
    subst hw
    simp [get_jwks, hc]

/-- C5 witness: with an empty cache and a connection failure, `get_jwks`
fails, and the configured timeout is 5 seconds. -/
theorem C5_fetch_failure_conditions_witness :
    (∃ m, (get_jwks .netFail s0).1 = .error m) ∧ jwksTimeoutSeconds = 5 :=
  ⟨(C5_fetch_failure_conditions .netFail s0 .nonMapping rfl).1.mpr (Or.inl rfl),
   (C5_fetch_failure_conditions .netFail s0 .nonMapping rfl).2.2⟩

/-- C9: a populated cache slot is served untouched whatever the network
would do, and a failed fetch leaves the empty slot empty (the failure is
not memoized), so any subsequent `get_jwks` call attempts the fetch again
(its fetch counter increments). -/
theorem C9_fetch_failure_leaves_cache (w w2 : NetResponse) (s s1 : CacheState)
    (j : JwksJson) (m : String) :
    (s.cache = some j → get_jwks w s = (.ok j, s)) ∧
    (get_jwks w s = (.error m, s1) →
      s.cache = none ∧ s1.cache = none ∧
      s1.fetchCount = s.fetchCount + 1 ∧ s1.clearCount = s.clearCount ∧
      (get_jwks w2 s1).2.fetchCount = s1.fetchCount + 1) := by
  refine ⟨get_jwks_hit w s j, ?_⟩
  intro h
  obtain ⟨hc, hc1, hf, hcl⟩ := get_jwks_err_inv w s s1 m h
  refine ⟨hc, hc1, hf, hcl, ?_⟩
  cases w2 <;> simp [get_jwks, hc1]

/-- C9 witness: a warm cache is served during a network outage with no state
change, and after a failed cold fetch the slot is still empty and the next
call fetches again. -/
theorem C9_fetch_failure_leaves_cache_witness :
    get_jwks .netFail (⟨some jwksDoc, 3, 0⟩ : CacheState) =
      (.ok jwksDoc, ⟨some jwksDoc, 3, 0⟩) ∧
    (s0.cache = none ∧ (⟨none, 1, 0⟩ : CacheState).cache = none ∧
      (⟨none, 1, 0⟩ : CacheState).fetchCount = s0.fetchCount + 1 ∧
      (⟨none, 1, 0⟩ : CacheState).clearCount = s0.clearCount ∧
      (get_jwks .invalidJson (⟨none, 1, 0⟩ : CacheState)).2.fetchCount =
        (⟨none, 1, 0⟩ : CacheState).fetchCount + 1) :=
  ⟨(C9_fetch_failure_leaves_cache .netFail .invalidJson ⟨some jwksDoc, 3, 0⟩ s0
      jwksDoc "x").1 rfl,
   (C9_fetch_failure_leaves_cache .netFail .invalidJson s0 ⟨none, 1, 0⟩ jwksDoc
      "Failed to fetch JWKS: network failure or timeout").2 rfl⟩

/-- C1 (counterexample): for a token whose kid `kid-rotated` matches no key
in the fetched KeySet, `verify_jwt_token` fails with the unknown-key error
after a single fetch — the final fetch count is 1, not the claimed 2, and
the invalidation count is 0, not the claimed 1: the code never calls
`invalidate()`/`cache_clear()` and never retries. -/
theorem C1_counterexample :
    (verify_jwt_token cfg0 1000 (.json jwksDoc)
        (.parsed ⟨some "RS256", some "kid-rotated"⟩ goodClaims 11 0) s0).1 =
      .error (.unknownKey "No matching key found for kid: kid-rotated") ∧
    (verify_jwt_token cfg0 1000 (.json jwksDoc)
        (.parsed ⟨some "RS256", some "kid-rotated"⟩ goodClaims 11 0) s0).2.fetchCount = 1 ∧
    (verify_jwt_token cfg0 1000 (.json jwksDoc)
        (.parsed ⟨some "RS256", some "kid-rotated"⟩ goodClaims 11 0) s0).2.clearCount = 0 ∧
    (1 : Nat) ≠ 2 ∧ (0 : Nat) ≠ 1 :=
  ⟨rfl, rfl, rfl, by decide, by decide⟩

/-- C1 (amended): for every token whose kid matches no key in the fetched
KeySet, `verify_jwt_token` performs no cache invalidation and no refetch: it
fails immediately with the unknown-key `JWTError`, the total number of
key-set fetches is at most 1 (1 on a cold cache, 0 on a cache hit), and the
invalidation counter is unchanged. -/
theorem C1_unknown_kid_no_retry (cfg : Settings) (now : Int) (w : NetResponse)
    (s s1 : CacheState) (hdr : JoseHeader) (c : TokenClaims) (i g : Nat)
    (kid : String) (okeys : Option (List JWK))
    (hk : hdr.kid = some kid) (hne : ¬ kid = "")
    (hg : get_jwks w s = (.ok (.mapping okeys), s1))
    (hnomatch : find_matching_key (okeys.getD []) kid = none) :
    verify_jwt_token cfg now w (.parsed hdr c i g) s =
      (.error (.unknownKey ("No matching key found for kid: " ++ kid)), s1) ∧
    s1.fetchCount ≤ s.fetchCount + 1 ∧ s1.clearCount = s.clearCount := by
  obtain ⟨hc1, hf, hcl, _⟩ := get_jwks_ok_inv w s s1 _ hg
  refine ⟨?_, hf, hcl⟩
  rw [verify_of_jwks cfg now w _ s s1 _ hg]
  simp [verifyWithJwks, get_unverified_header, hk, hne, hnomatch]

/-- C1 witness: concrete unknown-kid scenario from a cold cache — the error
is the unknown-key failure, one fetch happened, no invalidation. -/
theorem C1_unknown_kid_no_retry_witness :
    verify_jwt_token cfg0 1000 (.json jwksDoc)
        (.parsed ⟨some "RS256", some "k2"⟩ goodClaims 11 0) s0 =
      (.error (.unknownKey "No matching key found for kid: k2"),
        ⟨some jwksDoc, 1, 0⟩) ∧
    (⟨some jwksDoc, 1, 0⟩ : CacheState).fetchCount ≤ s0.fetchCount + 1 ∧
    (⟨some jwksDoc, 1, 0⟩ : CacheState).clearCount = s0.clearCount :=
  C1_unknown_kid_no_retry cfg0 1000 (.json jwksDoc) s0 ⟨some jwksDoc, 1, 0⟩
    ⟨some "RS256", some "k2"⟩ goodClaims 11 0 "k2" (some [key1])
    rfl (by decide) rfl rfl

end TodoKudo

namespace TodoKudo

/-- C2: for every well-formed token whose header kid matches a key in the
fetched KeySet, whose signature verifies under that key with an allow-listed
algorithm of the right key family, and whose claims carry a non-expired exp,
an iss and aud equal to the configured `BETTER_AUTH_URL`, and a non-empty
sub, `verify_jwt_token` returns exactly the token's sub value. -/
theorem C2_valid_token_returns_sub (cfg : Settings) (now : Int) (w : NetResponse)
    (s s1 : CacheState) (hdr : JoseHeader) (c : TokenClaims) (i g : Nat)
    (kid alg u : String) (e : Int) (okeys : Option (List JWK)) (key : JWK)
    (hg : get_jwks w s = (.ok (.mapping okeys), s1))
    (hk : hdr.kid = some kid) (hkne : ¬ kid = "")
    (hfind : find_matching_key (okeys.getD []) kid = some key)
    (halg : hdr.alg = some alg) (hallow : alg ∈ allowedAlgorithms)
    (hfam : ktyFor alg = some key.kty)
    (hsig : g = sign key.material alg i)
    (hnbf : c.nbf = none)
    (hexp : c.exp = some e) (hfresh : ¬ e < now)
    (hiss : c.iss = some cfg.BETTER_AUTH_URL)
    (haud : c.aud = some cfg.BETTER_AUTH_URL)
    (hsub : c.sub = some u) (hune : ¬ u = "") :
    verify_jwt_token cfg now w (.parsed hdr c i g) s = (.ok u, s1) := by
  rw [verify_of_jwks cfg now w _ s s1 _ hg]
  simp [verifyWithJwks, get_unverified_header, hk, hkne, hfind, jose_decode, halg,
    hallow, hfam, hsig, validate_claims, validate_nbf, validate_exp, validate_aud,
    validate_iss, hnbf, hexp, hfresh, hiss, haud, hsub, hune, bind, Except.bind]

/-- C2 witness: the end-to-end scenario — `goodToken` against the fetched
`jwksDoc` from a cold cache yields subject `user-42`. -/
theorem C2_valid_token_returns_sub_witness :
    verify_jwt_token cfg0 1000 (.json jwksDoc) goodToken s0 =
      (.ok "user-42", ⟨some jwksDoc, 1, 0⟩) :=
  C2_valid_token_returns_sub cfg0 1000 (.json jwksDoc) s0 ⟨some jwksDoc, 1, 0⟩
    ⟨some "RS256", some "k1"⟩ goodClaims 11 (sign 7 "RS256" 11)
    "k1" "RS256" "user-42" 2000 (some [key1]) key1
    rfl rfl (by decide) rfl rfl (by decide) rfl rfl rfl rfl (by decide) rfl rfl rfl
    (by decide)

/-- C3: a token whose header declares an algorithm outside the allow-list
RS256/PS256/ES256, or whose declared algorithm does not fit the matched
key's family, never verifies — even with a structurally matching kid in the
KeySet — and the failure is a signature-stage error. -/
theorem C3_disallowed_alg_rejected (cfg : Settings) (now : Int) (w : NetResponse)
    (s s1 : CacheState) (hdr : JoseHeader) (c : TokenClaims) (i g : Nat)
    (kid alg : String) (okeys : Option (List JWK)) (key : JWK)
    (hg : get_jwks w s = (.ok (.mapping okeys), s1))
    (hk : hdr.kid = some kid) (hkne : ¬ kid = "")
    (hfind : find_matching_key (okeys.getD []) kid = some key)
    (halg : hdr.alg = some alg)
    (hbad : alg ∉ allowedAlgorithms ∨ ∃ fam, ktyFor alg = some fam ∧ key.kty ≠ fam) :
    failedWithSignatureError (verify_jwt_token cfg now w (.parsed hdr c i g) s).1 = true := by
  rw [verify_of_jwks cfg now w _ s s1 _ hg]
  rcases hbad with hout | ⟨fam, hfam, hne⟩
  · simp [verifyWithJwks, get_unverified_header, hk, hkne, hfind, jose_decode, halg,
      hout, failedWithSignatureError]
  · by_cases hin : alg ∈ allowedAlgorithms
    · simp [verifyWithJwks, get_unverified_header, hk, hkne, hfind, jose_decode, halg,
        hin, hfam, hne, failedWithSignatureError]
    · simp [verifyWithJwks, get_unverified_header, hk, hkne, hfind, jose_decode, halg,
        hin, failedWithSignatureError]

/-- C3 witness: an HS256 token whose kid matches `key1` is rejected at the
signature stage. -/
theorem C3_disallowed_alg_rejected_witness :
    failedWithSignatureError (verify_jwt_token cfg0 1000 (.json jwksDoc)
      (.parsed ⟨some "HS256", some "k1"⟩ goodClaims 11 5) s0).1 = true :=
  C3_disallowed_alg_rejected cfg0 1000 (.json jwksDoc) s0 ⟨some jwksDoc, 1, 0⟩
    ⟨some "HS256", some "k1"⟩ goodClaims 11 5 "k1" "HS256" (some [key1]) key1
    rfl rfl (by decide) rfl rfl (Or.inl (by decide))

/-- C4 (counterexample): an expired token (`exp = 500 < now = 1000`) whose
signature is invalid fails with the signature error, not with `ClaimError`
as the claim asserts — `jwt.decode` verifies the signature before it looks
at any claim. -/
theorem C4_counterexample :
    ((500 : Int) < 1000) ∧
    (verify_jwt_token cfg0 1000 (.json jwksDoc)
        (.parsed ⟨some "RS256", some "k1"⟩ expiredClaims 11 0) s0).1 =
      .error (.signatureError "Signature verification failed.") ∧
    failedWithClaimError (verify_jwt_token cfg0 1000 (.json jwksDoc)
        (.parsed ⟨some "RS256", some "k1"⟩ expiredClaims 11 0) s0).1 = false :=
  ⟨by decide, rfl, rfl⟩

/-- C4 (amended): signature validity is checked first — an invalid signature
fails with the signature error even on an expired token; once the signature
verifies, claim validation fails with a `ClaimError` naming the failed
claim: an expired `exp` as "Signature has expired.", then an audience
different from the configured one as "Invalid audience", then an issuer
different from the configured one as "Invalid issuer". -/
theorem C4_claim_validation_after_signature (cfg : Settings) (now : Int)
    (w : NetResponse) (s s1 : CacheState) (hdr : JoseHeader) (c : TokenClaims)
    (i g : Nat) (kid alg a : String) (e : Int)
    (okeys : Option (List JWK)) (key : JWK)
    (hg : get_jwks w s = (.ok (.mapping okeys), s1))
    (hk : hdr.kid = some kid) (hkne : ¬ kid = "")
    (hfind : find_matching_key (okeys.getD []) kid = some key)
    (halg : hdr.alg = some alg) (hallow : alg ∈ allowedAlgorithms)
    (hfam : ktyFor alg = some key.kty) (hnbf : c.nbf = none) :
    (g ≠ sign key.material alg i →
      (verify_jwt_token cfg now w (.parsed hdr c i g) s).1 =
        .error (.signatureError "Signature verification failed.")) ∧
    (g = sign key.material alg i → c.exp = some e → e < now →
      (verify_jwt_token cfg now w (.parsed hdr c i g) s).1 =
        .error (.claimError "Signature has expired.")) ∧
    (g = sign key.material alg i → validate_exp c now = .ok () →
      c.aud = some a → a ≠ cfg.BETTER_AUTH_URL →
      (verify_jwt_token cfg now w (.parsed hdr c i g) s).1 =
        .error (.claimError "Invalid audience")) ∧
    (g = sign key.material alg i → validate_exp c now = .ok () →
      validate_aud c cfg.BETTER_AUTH_URL = .ok () →
      c.iss ≠ some cfg.BETTER_AUTH_URL →
      (verify_jwt_token cfg now w (.parsed hdr c i g) s).1 =
        .error (.claimError "Invalid issuer")) := by
  rw [verify_of_jwks cfg now w _ s s1 _ hg]
  refine ⟨?_, ?_, ?_, ?_⟩
  · intro hsig
    simp [verifyWithJwks, get_unverified_header, hk, hkne, hfind, jose_decode, halg,
      hallow, hfam, hsig]
  · intro hsig hexp hlt
    simp [verifyWithJwks, get_unverified_header, hk, hkne, hfind, jose_decode, halg,
      hallow, hfam, hsig, validate_claims, validate_nbf, validate_exp, hnbf, hexp,
      hlt, bind, Except.bind]
  · intro hsig hexpok haud hane
    simp [verifyWithJwks, get_unverified_header, hk, hkne, hfind, jose_decode, halg,
      hallow, hfam, hsig, validate_claims, validate_nbf, validate_aud, hnbf, hexpok,
      haud, hane, bind, Except.bind]
  · intro hsig hexpok haudok hine
    simp [verifyWithJwks, get_unverified_header, hk, hkne, hfind, jose_decode, halg,
      hallow, hfam, hsig, validate_claims, validate_nbf, validate_iss, hnbf, hexpok,
      haudok, hine, bind, Except.bind]

/-- C4 witness: a correctly signed but expired token fails with the
`ClaimError` naming the expiry. -/
theorem C4_claim_validation_after_signature_witness :
    (verify_jwt_token cfg0 1000 (.json jwksDoc)
        (.parsed ⟨some "RS256", some "k1"⟩ expiredClaims 11 (sign 7 "RS256" 11)) s0).1 =
      .error (.claimError "Signature has expired.") :=
  (C4_claim_validation_after_signature cfg0 1000 (.json jwksDoc) s0
      ⟨some jwksDoc, 1, 0⟩ ⟨some "RS256", some "k1"⟩ expiredClaims 11
      (sign 7 "RS256" 11) "k1" "RS256" "x" 500 (some [key1]) key1
      rfl rfl (by decide) rfl rfl (by decide) rfl rfl).2.1 rfl rfl (by decide)

end TodoKudo

namespace TodoKudo

/-- C6: calling `verify_jwt_token` twice with the same valid token and no
invalidation in between returns the same subject both times, and the two
calls together perform at most one network fetch — the second call is served
from the single-slot cache. -/
theorem C6_verify_idempotent (cfg : Settings) (now : Int) (w : NetResponse)
    (token : RawToken) (s s1 : CacheState) (u : String)
    (h : verify_jwt_token cfg now w token s = (.ok u, s1)) :
    verify_jwt_token cfg now w token s1 = (.ok u, s1) ∧
    s1.fetchCount ≤ s.fetchCount + 1 := by
  obtain ⟨j, hg, hv⟩ := verify_ok_inv cfg now w token s s1 u h
  obtain ⟨hc, hf, hcl, hrepeat⟩ := get_jwks_ok_inv w s s1 j hg
  refine ⟨?_, hf⟩
  rw [verify_of_jwks cfg now w token s1 s1 j hrepeat, hv]

/-- C6 witness: after a first successful verification of `goodToken` from a
cold cache, the repeated call returns the same subject from the cache and
the total fetch count stays at 1. -/
theorem C6_verify_idempotent_witness :
    verify_jwt_token cfg0 1000 (.json jwksDoc) goodToken
        (⟨some jwksDoc, 1, 0⟩ : CacheState) =
      (.ok "user-42", ⟨some jwksDoc, 1, 0⟩) ∧
    (⟨some jwksDoc, 1, 0⟩ : CacheState).fetchCount ≤ s0.fetchCount + 1 :=
  C6_verify_idempotent cfg0 1000 (.json jwksDoc) goodToken s0
    ⟨some jwksDoc, 1, 0⟩ "user-42" rfl

/-- C7: provided the key-set fetch succeeds, every input that is not a
structurally well-formed token, or whose decoded header lacks a kid (absent
or empty, both falsy in the code's check), fails with the malformed-token
error — before any signature or claim processing is reached. -/
theorem C7_malformed_token_rejected (cfg : Settings) (now : Int)
    (w : NetResponse) (s s1 : CacheState) (j : JwksJson) (token : RawToken)
    (hg : get_jwks w s = (.ok j, s1))
    (hbad : token = .malformed ∨
      ∃ hdr c i g, token = .parsed hdr c i g ∧
        (hdr.kid = none ∨ hdr.kid = some "")) :
    failedWithMalformedToken (verify_jwt_token cfg now w token s).1 = true := by
  rw [verify_of_jwks cfg now w token s s1 j hg]
  rcases hbad with rfl | ⟨hdr, c, i, g, rfl, hkid⟩
  · simp [verifyWithJwks, get_unverified_header, failedWithMalformedToken]
  · rcases hkid with hnone | hempty
    · simp [verifyWithJwks, get_unverified_header, hnone, failedWithMalformedToken]
    · simp [verifyWithJwks, get_unverified_header, hempty, failedWithMalformedToken]

/-- C7 witness: a structurally invalid token is rejected as malformed. -/
theorem C7_malformed_token_rejected_witness :
    failedWithMalformedToken
      (verify_jwt_token cfg0 1000 (.json jwksDoc) .malformed s0).1 = true :=
  C7_malformed_token_rejected cfg0 1000 (.json jwksDoc) s0 ⟨some jwksDoc, 1, 0⟩
    jwksDoc .malformed rfl (Or.inl rfl)

/-- C8: for a token that passes the signature stage and standard-claim
validation (`jose_decode` succeeds), an absent or empty `sub` fails with the
claim error "Missing user_id in token payload", and otherwise
`verify_jwt_token` returns the subject — a successful outcome is always the
token's non-empty `sub` string. -/
theorem C8_sub_required_nonempty (cfg : Settings) (now : Int) (w : NetResponse)
    (s s1 : CacheState) (hdr : JoseHeader) (c : TokenClaims) (i g : Nat)
    (kid u : String) (okeys : Option (List JWK)) (key : JWK)
    (hg : get_jwks w s = (.ok (.mapping okeys), s1))
    (hk : hdr.kid = some kid) (hkne : ¬ kid = "")
    (hfind : find_matching_key (okeys.getD []) kid = some key)
    (hdec : jose_decode (.parsed hdr c i g) key allowedAlgorithms
        cfg.BETTER_AUTH_URL cfg.BETTER_AUTH_URL now = .ok c) :
    ((c.sub = none ∨ c.sub = some "") →
      (verify_jwt_token cfg now w (.parsed hdr c i g) s).1 =
        .error (.claimError "Missing user_id in token payload")) ∧
    (c.sub = some u → ¬ u = "" →
      (verify_jwt_token cfg now w (.parsed hdr c i g) s).1 = .ok u) := by
  rw [verify_of_jwks cfg now w _ s s1 _ hg]
  constructor
  · rintro (hs | hs) <;>
      simp [verifyWithJwks, get_unverified_header, hk, hkne, hfind, hdec, hs]
  · intro hs hu
    simp [verifyWithJwks, get_unverified_header, hk, hkne, hfind, hdec, hs, hu]

/-- C8 witness: a correctly signed, fully valid token whose payload lacks a
`sub` claim fails with the missing-subject claim error. -/
theorem C8_sub_required_nonempty_witness :
    (verify_jwt_token cfg0 1000 (.json jwksDoc)
        (.parsed ⟨some "RS256", some "k1"⟩ noSubClaims 11 (sign 7 "RS256" 11)) s0).1 =
      .error (.claimError "Missing user_id in token payload") :=
  (C8_sub_required_nonempty cfg0 1000 (.json jwksDoc) s0 ⟨some jwksDoc, 1, 0⟩
      ⟨some "RS256", some "k1"⟩ noSubClaims 11 (sign 7 "RS256" 11)
      "k1" "x" (some [key1]) key1 rfl rfl (by decide) rfl rfl).1 (Or.inl rfl)

/-- A successful run of the token pipeline can only end in the final branch
of `verify_jwt_token`, whose guard has already ruled out the empty string. -/
lemma verifyWithJwks_ok_ne_empty (cfg : Settings) (now : Int) (jwks : JwksJson)
    (token : RawToken) (u : String)
    (h : verifyWithJwks cfg now jwks token = .ok u) : ¬ u = "" := by
  intro hu
  subst hu
  unfold verifyWithJwks at h
  repeat' split at h
  all_goals simp_all

/-- C10 (counterexample): with a cold cache and an unreachable identity
provider, `verify_jwt_token` raises the plain fetch `Exception` — which is
not a `jose.JWTError` — contradicting the claim that it either returns a
non-empty string or raises `JWTError`. -/
theorem C10_counterexample :
    (verify_jwt_token cfg0 1000 .netFail goodToken s0).1 =
      .error (.keyFetchError "Failed to fetch JWKS: network failure or timeout") ∧
    VError.raisedAsJWTError
      (.keyFetchError "Failed to fetch JWKS: network failure or timeout") = false :=
  ⟨rfl, rfl⟩

/-- C10 (amended): `verify_jwt_token` never returns a falsy value — every
successful outcome is a non-empty subject string (so the falsy-return branch
in `get_current_user` is unreachable, and `get_current_user` forwards the
subject as the authorized principal) — but its failures are not all
`JWTError`: the JWKS fetch failure propagates as a plain `Exception`. -/
theorem C10_success_is_nonempty_string (cfg : Settings) (now : Int)
    (w : NetResponse) (token : RawToken) (s : CacheState) (u : String)
    (h : (verify_jwt_token cfg now w token s).1 = .ok u) :
    ¬ u = "" ∧ (get_current_user cfg now w token s).1 = .authorized u := by
  rcases hv : verify_jwt_token cfg now w token s with ⟨res, s1⟩
  rw [hv] at h
  have hres : res = Except.ok u := h
  subst hres
  obtain ⟨j, hg, hvw⟩ := verify_ok_inv cfg now w token s s1 u hv
  have hne := verifyWithJwks_ok_ne_empty cfg now j token u hvw
  refine ⟨hne, ?_⟩
  simp [get_current_user, hv, hne]

/-- C10 witness: the successful verification of `goodToken` yields the
non-empty subject `user-42`, which `get_current_user` forwards. -/
theorem C10_success_is_nonempty_string_witness :
    ¬ "user-42" = "" ∧
    (get_current_user cfg0 1000 (.json jwksDoc) goodToken s0).1 =
      .authorized "user-42" :=
  C10_success_is_nonempty_string cfg0 1000 (.json jwksDoc) goodToken s0
    "user-42" rfl

end TodoKudo
